import Mathlib

/-!
Shallow embedding of the AvSocket typed-RPC core (src/lib.rs, src/client.rs,
src/server.rs) and proofs about it.

Modelling conventions:
* Rust byte buffers (`Vec<u8>`, and the UTF-8 byte content of `String`) are
  `List Nat`; values produced by the encoders are always below 256.
* The serialization scheme is bincode 1.x with its legacy `serialize` /
  `deserialize` entry points: fixed-width little-endian integers, `u64`
  length prefixes for sequences and strings, field-order struct encoding,
  `PhantomData` occupying zero bytes, tuples as plain concatenation, and
  trailing bytes allowed at top level.
* Fallible Rust operations return `Option`; a Rust panic (for example the
  `expect` calls in the server callback wrapper, or the `unwrap` in
  `Dispatcher::dispatch`) is modelled as a distinguished non-success
  outcome, never silently collapsed into success.
* The decoder for Rust `String` content omits the UTF-8 validity check
  (every byte list is accepted); this is faithful on every
  encode-then-decode path, because encoders only emit bytes that came from
  actual strings.
-/

namespace AvSocket

/-- Rust byte buffers: `Vec<u8>` and the byte content of `String`. -/
abbrev Bytes := List Nat

/-- bincode fixint little-endian encoding of a `u64` (8 bytes). -/
def u64le (n : Nat) : Bytes :=
  [n % 256, n / 256 % 256, n / 65536 % 256, n / 16777216 % 256,
   n / 4294967296 % 256, n / 1099511627776 % 256,
   n / 281474976710656 % 256, n / 72057594037927936 % 256]

/-- Read a little-endian `u64` from the front of a byte stream. -/
def readU64 : Bytes → Option (Nat × Bytes)
  | b0 :: b1 :: b2 :: b3 :: b4 :: b5 :: b6 :: b7 :: rest =>
      some (b0 + 256 * b1 + 65536 * b2 + 16777216 * b3 + 4294967296 * b4 +
            1099511627776 * b5 + 281474976710656 * b6 +
            72057594037927936 * b7, rest)
  | _ => none

/-- Read exactly `k` bytes from the front of a stream; fails if fewer remain. -/
def splitAtLen (k : Nat) (bs : Bytes) : Option (Bytes × Bytes) :=
  if k ≤ bs.length then some (bs.take k, bs.drop k) else none

/-- bincode encoding of a byte sequence (the content of `Vec<u8>` or
`String`): a `u64` length prefix followed by the raw bytes. -/
def serVec (bs : Bytes) : Bytes := u64le bs.length ++ bs

/-- bincode decoding of a byte sequence: read the length prefix, then that
many bytes; the unread remainder is returned. -/
def deserVec (input : Bytes) : Option (Bytes × Bytes) :=
  (readU64 input).bind fun p => splitAtLen p.1 p.2

/-- A serde Serialize-plus-DeserializeOwned pair for one Rust type, under
the fixed bincode scheme: `ser` emits bytes, `deser` consumes a prefix of a
byte stream and returns the value together with the unread remainder. -/
structure Serial (α : Type) where
  ser : α → Bytes
  deser : Bytes → Option (α × Bytes)

/-- A serializable type is lawful when decoding inverts encoding wherever
the encoded bytes sit at the front of a stream.  This is what the spec
means by a serializable parameter or return type: its bincode instance
round-trips. -/
def Serial.lawful {α : Type} (s : Serial α) : Prop :=
  ∀ (a : α) (rest : Bytes), s.deser (s.ser a ++ rest) = some (a, rest)

/-- Top-level `bincode::serialize`. -/
def topSer {α : Type} (s : Serial α) (a : α) : Bytes := s.ser a

/-- Top-level `bincode::deserialize`: the legacy bincode entry point allows
trailing bytes, so any unread remainder is discarded. -/
def topDeser {α : Type} (s : Serial α) (bs : Bytes) : Option α :=
  (s.deser bs).map Prod.fst

/-- Rust `u32`: a natural number below 2^32. -/
abbrev U32 := Fin 4294967296

/-- bincode encoding of `u32`: 4 little-endian bytes. -/
def serU32 : Serial U32 where
  ser n := [n.val % 256, n.val / 256 % 256, n.val / 65536 % 256,
            n.val / 16777216 % 256]
  deser
    | b0 :: b1 :: b2 :: b3 :: rest =>
        some (⟨(b0 + 256 * b1 + 65536 * b2 + 16777216 * b3) % 4294967296,
               Nat.mod_lt _ (by omega)⟩, rest)
    | _ => none

/-- bincode encoding of a 2-tuple: the two components in order,
concatenated. -/
def serProd {α β : Type} (sa : Serial α) (sb : Serial β) : Serial (α × β) where
  ser p := sa.ser p.1 ++ sb.ser p.2
  deser bs :=
    (sa.deser bs).bind fun pa =>
      (sb.deser pa.2).map fun pb => ((pa.1, pb.1), pb.2)

/-- Rust `PhantomData<α>`: a zero-sized type tag carrying no runtime data. -/
structure Phantom (α : Type) : Type where
  mk ::
deriving DecidableEq

/-- bincode encoding of `PhantomData`: zero bytes on the wire. -/
def serPhantom (α : Type) : Serial (Phantom α) where
  ser _ := []
  deser bs := some (⟨⟩, bs)

/-- `transport::Request` from src/lib.rs: client-to-server message with a
correlation `id` (a UUIDv4 string, modelled as its bytes), the target
`method` name, and a `body` payload. -/
structure Request (Body : Type) where
  id : Bytes
  method : Bytes
  body : Body
deriving DecidableEq

/-- `transport::Response` from src/lib.rs: server-to-client message; `to`
copies the `id` of the originating request. -/
structure Response (Body : Type) where
  «to» : Bytes
  method : Bytes
  body : Body
deriving DecidableEq

/-- bincode encoding of `Request<Vec<u8>>`: the three fields in declaration
order (`id`, `method`, `body`), each as a length-prefixed byte sequence.
This is the layer-2 (envelope) wire form. -/
def serRequestRaw : Serial (Request Bytes) where
  ser r := serVec r.id ++ (serVec r.method ++ serVec r.body)
  deser input :=
    (deserVec input).bind fun p1 =>
      (deserVec p1.2).bind fun p2 =>
        (deserVec p2.2).map fun p3 => (⟨p1.1, p2.1, p3.1⟩, p3.2)

/-- bincode encoding of `Response<Vec<u8>>`: fields `to`, `method`, `body`
in declaration order, each length-prefixed. -/
def serResponseRaw : Serial (Response Bytes) where
  ser r := serVec r.to ++ (serVec r.method ++ serVec r.body)
  deser input :=
    (deserVec input).bind fun p1 =>
      (deserVec p1.2).bind fun p2 =>
        (deserVec p2.2).map fun p3 => (⟨p1.1, p2.1, p3.1⟩, p3.2)

namespace Request

/-- `Request::new(label, body)` from src/lib.rs.  The source draws a fresh
random UUIDv4 for `id`; the embedding takes that fresh token as the
explicit argument `freshId`, so every statement below holds for any
generated id. -/
def new {Body : Type} (freshId : Bytes) (label : Bytes) (body : Body) :
    Request Body :=
  { id := freshId, method := label, body := body }

/-- `Request::to_bytes` from src/lib.rs: layer-1-serialize the typed body,
then layer-2-serialize the resulting `Request<Vec<u8>>` envelope. -/
def to_bytes {Body : Type} (sb : Serial Body) (r : Request Body) : Bytes :=
  serRequestRaw.ser { id := r.id, method := r.method, body := topSer sb r.body }

/-- `Request::from_bytes` from src/lib.rs: `bincode::deserialize` of the
envelope with a type-erased (`Vec<u8>`) body; `none` on malformed bytes. -/
def from_bytes (bytes : Bytes) : Option (Request Bytes) :=
  topDeser serRequestRaw bytes

/-- `Request::convert_inner` from src/lib.rs: layer-1-decode the opaque
body into the desired type, keeping `id` and `method`; `none` on
mismatch. -/
def convert_inner {Body : Type} (sb : Serial Body) (r : Request Bytes) :
    Option (Request Body) :=
  (topDeser sb r.body).map fun b => { id := r.id, method := r.method, body := b }

/-- `Request::reply` from src/lib.rs: build a `Response` whose `to` is the
`id` of this request and whose `method` is copied over.  The source takes
an immutable borrow and clones the two fields; the embedding is pure, so
the original request is untouched by construction. -/
def reply {Body NewBody : Type} (r : Request Body) (body : NewBody) :
    Response NewBody :=
  { «to» := r.id, method := r.method, body := body }

end Request

namespace Response

/-- `Response::from_bytes` from src/lib.rs. -/
def from_bytes (bytes : Bytes) : Option (Response Bytes) :=
  topDeser serResponseRaw bytes

/-- `Response::convert_inner` from src/lib.rs. -/
def convert_inner {Body : Type} (sb : Serial Body) (r : Response Bytes) :
    Option (Response Body) :=
  (topDeser sb r.body).map fun b => { «to» := r.to, method := r.method, body := b }

/-- `Response::consume` from src/lib.rs: take the body. -/
def consume {Body : Type} (r : Response Body) : Body := r.body

/-- `Response::to_bytes` from src/lib.rs: layer-1 then layer-2, mirroring
`Request::to_bytes`. -/
def to_bytes {Body : Type} (sb : Serial Body) (r : Response Body) : Bytes :=
  serResponseRaw.ser { «to» := r.to, method := r.method, body := topSer sb r.body }

end Response

/-- `Method<P, R>` from src/lib.rs: metadata about a method — its name plus
two `PhantomData` type tags.  Only the name is runtime data. -/
structure Method (P R : Type) where
  name : Bytes

/-- `methodify` from src/lib.rs: converts a `fn` into a `Method`.  The
function argument exists only to pin down `P` and `R` at the type level;
its value is discarded — never stored and never called.  (In the source
the macro `declare!` passes a stub whose body is `unimplemented!()`.) -/
def methodify {P R : Type} (_f : P → R) (name : Bytes) : Method P R :=
  { name := name }

/-- `Method::call_once` from src/lib.rs (the `FnOnce` impl): invoking a
descriptor layer-1-serializes the argument tuple, wraps it in a fresh
`Request` via `Request::new`, and pairs it with a `PhantomData<R>` return
type tag.  `sp` is the bincode instance for `P`; `freshId` is the UUIDv4
that `Request::new` draws. -/
def Method.call {P R : Type} (sp : Serial P) (m : Method P R)
    (freshId : Bytes) (args : P) : Request Bytes × Phantom R :=
  (Request.new freshId m.name (topSer sp args), ⟨⟩)

/-- `RawCallback` from src/server.rs: a type-erased handler taking a raw
request to a raw response.  The Rust callback panics (`expect`) when the
body does not decode; the embedding returns `none` for that abort, so a
constructed response is always `some`. -/
def RawCallback : Type := Request Bytes → Option (Response Bytes)

/-- The closure built inside `Handler::add` (src/server.rs):
layer-1-decode the request body into `P` (panic — here `none` — on
failure), run the implementation, layer-1-encode the result, and `reply`
to the request. -/
def rawCallback {P R : Type} (sp : Serial P) (sr : Serial R)
    (implementation : P → R) : RawCallback :=
  fun req =>
    (topDeser sp req.body).map fun body =>
      req.reply (topSer sr (implementation body))

/-- `Handler` from src/server.rs: a map from method name to type-erased
callback.  The `HashMap` is modelled as an association list where
insertion prepends and lookup takes the first hit, which matches the
observable insert/get behaviour of the map (an insert shadows any earlier
entry for the same key). -/
def Handler : Type := List (Bytes × RawCallback)

namespace Handler

/-- `Handler::default()`: the empty registry. -/
def empty : Handler := []

/-- `Handler::add` from src/server.rs: register `implementation` under the
descriptor name, wrapped in the type-erasing closure.  The underlying
insert returns no error; a repeated name silently shadows the old entry. -/
def add {P R : Type} (h : Handler) (method : Method P R)
    (sp : Serial P) (sr : Serial R) (implementation : P → R) : Handler :=
  (method.name, rawCallback sp sr implementation) :: h

/-- `HashMap::get` on the registry: the first entry with the given key. -/
def find : Handler → Bytes → Option RawCallback
  | [], _ => none
  | (k, c) :: rest, name => if k = name then some c else Handler.find rest name

/-- `Handler::handle` from src/server.rs: layer-2-decode the inbound bytes
into a `Request<Vec<u8>>` (`none` on failure), look up the callback by
method name (`none` if unregistered), invoke it, and layer-2-encode the
resulting `Response<Vec<u8>>`.  A `none` result means no response frame is
produced: the server loop then writes nothing. -/
def handle (h : Handler) (input : Bytes) : Option Bytes :=
  (topDeser serRequestRaw input).bind fun req =>
    (Handler.find h req.method).bind fun call =>
      (call req).map fun res => topSer serResponseRaw res

end Handler

/-- Outcome of one read from the framed transport, as seen by
`Dispatcher::dispatch`: a whole frame, an I/O error, or end of stream
(the call `transport.next()` returned `None`). -/
inductive ReadOutcome where
  | frame (bs : Bytes)
  | readError
  | streamEnd

/-- Result of `Dispatcher::dispatch` from the point of view of its caller.
`envelopeError` and `bodyError` are the two explicit anyhow protocol
errors; `transportError` is a propagated I/O error; `panicked` is the
`unwrap()` panic, which is not a returned Result at all. -/
inductive DispatchOutcome (R : Type) where
  | ok (value : R)
  | envelopeError
  | bodyError
  | transportError
  | panicked
deriving DecidableEq

/-- The outcome constructors under which `dispatch` returns an Err value
to its caller. -/
def DispatchOutcome.isErrorResult {R : Type} : DispatchOutcome R → Bool
  | .envelopeError => true
  | .bodyError => true
  | .transportError => true
  | _ => false

namespace Dispatcher

/-- The frame `Dispatcher::dispatch` (src/client.rs) sends:
`bincode::serialize` of the pair of a `Request<Vec<u8>>` and a
`PhantomData<R>` — the pair is encoded as the envelope followed by the
zero-byte tag. -/
def sent {R : Type} (req : Request Bytes × Phantom R) : Bytes :=
  topSer (serProd serRequestRaw (serPhantom R)) req

/-- `Dispatcher::dispatch` from src/client.rs, as a function of the typed
call pair and of the outcome of the single transport read that follows
the send.  Returns the bytes put on the wire together with what the
caller observes: the read is `transport.next().await.unwrap()?`, which
panics on end-of-stream and propagates a read error; then a failure of
`Response::from_bytes` and a failure of `convert_inner::<R>` each produce
an explicit anyhow error; on success the response body is consumed. -/
def dispatch {R : Type} (sr : Serial R) (req : Request Bytes × Phantom R)
    (readResult : ReadOutcome) : Bytes × DispatchOutcome R :=
  (sent req,
    match readResult with
    | .streamEnd => .panicked
    | .readError => .transportError
    | .frame bin =>
      match Response.from_bytes bin with
      | none => .envelopeError
      | some res =>
        match res.convert_inner sr with
        | none => .bodyError
        | some typed => .ok typed.consume)

end Dispatcher

/-- The bincode instance for the parameter tuple `(u32, u32)`. -/
def serU32pair : Serial (U32 × U32) := serProd serU32 serU32

/-- Byte content of the method name string used in the end-to-end
scenario of the spec: the three ASCII bytes of the name add. -/
def strAdd : Bytes := [97, 100, 100]

/-- Byte content of the unregistered method name mul. -/
def strMul : Bytes := [109, 117, 108]

/-- A concrete stand-in for one freshly drawn UUIDv4 token. -/
def demoId : Bytes := [100, 101, 109, 111]

/-- The u32 addition implementation of the scenario; `Fin` addition wraps
modulo 2^32, matching release-mode `u32` addition (no overflow occurs at
the inputs used here). -/
def addImpl : U32 × U32 → U32 := fun p => p.1 + p.2

/-- A u32 multiplication implementation, used only to build a well-formed
request for a name that was never registered. -/
def mulImpl : U32 × U32 → U32 := fun p => p.1 * p.2

/-- The descriptor `declare!(extern fn add(u32, u32) -> u32)` expands to. -/
def addMethod : Method (U32 × U32) U32 := methodify addImpl strAdd

/-- A descriptor for the unregistered method name. -/
def mulMethod : Method (U32 × U32) U32 := methodify mulImpl strMul

/-- A registry holding exactly the add method. -/
def demoHandler : Handler :=
  Handler.add Handler.empty addMethod serU32pair serU32 addImpl

/-- The client-side invocation add(5, 23). -/
def demoCall : Request Bytes × Phantom U32 :=
  Method.call serU32pair addMethod demoId (5, 23)

/-- The request of the add(5, 23) invocation. -/
def demoRequest : Request Bytes := demoCall.1

/-- The client-side invocation mul(3, 4), for a name with no callback. -/
def mulCall : Request Bytes × Phantom U32 :=
  Method.call serU32pair mulMethod demoId (3, 4)

/-- The request of the mul(3, 4) invocation. -/
def mulRequest : Request Bytes := mulCall.1

/-- The wire frame carrying the mul(3, 4) request. -/
def mulWire : Bytes := Dispatcher.sent mulCall

/-- A request whose body (empty bytes) does not layer-1-decode as a
`(u32, u32)` tuple. -/
def badBodyRequest : Request Bytes := Request.new demoId strAdd []

theorem readU64_u64le (n : Nat) (hn : n < 18446744073709551616) (rest : Bytes) :
    readU64 (u64le n ++ rest) = some (n, rest) := by
  simp only [u64le, List.cons_append, List.nil_append, readU64,
    Option.some.injEq, Prod.mk.injEq]
  exact ⟨by omega, trivial⟩

theorem splitAtLen_append (xs rest : Bytes) :
    splitAtLen xs.length (xs ++ rest) = some (xs, rest) := by
  simp [splitAtLen]

theorem deserVec_serVec (bs rest : Bytes)
    (h : bs.length < 18446744073709551616) :
    deserVec (serVec bs ++ rest) = some (bs, rest) := by
  unfold serVec deserVec
  rw [List.append_assoc, readU64_u64le _ h]
  simpa using splitAtLen_append bs rest

theorem topDeser_topSer {α : Type} (s : Serial α) (hs : s.lawful) (a : α) :
    topDeser s (topSer s a) = some a := by
  have h := hs a []
  rw [List.append_nil] at h
  simp [topDeser, topSer, h]

theorem serU32_lawful : serU32.lawful := by
  rintro ⟨v, hv⟩ rest
  simp only [serU32, List.cons_append, List.nil_append, Option.some.injEq,
    Prod.mk.injEq, Fin.mk.injEq]
  exact ⟨by omega, trivial⟩

theorem serProd_lawful {α β : Type} (sa : Serial α) (sb : Serial β)
    (ha : sa.lawful) (hb : sb.lawful) : (serProd sa sb).lawful := by
  rintro ⟨a, b⟩ rest
  simp only [serProd, List.append_assoc]
  rw [ha a (sb.ser b ++ rest)]
  simp [hb b rest]

theorem serPhantom_lawful (α : Type) : (serPhantom α).lawful := by
  rintro ⟨⟩ rest
  simp [serPhantom]

theorem serU32pair_lawful : serU32pair.lawful :=
  serProd_lawful serU32 serU32 serU32_lawful serU32_lawful

theorem serRequestRaw_roundtrip (r : Request Bytes) (rest : Bytes)
    (h1 : r.id.length < 18446744073709551616)
    (h2 : r.method.length < 18446744073709551616)
    (h3 : r.body.length < 18446744073709551616) :
    serRequestRaw.deser (serRequestRaw.ser r ++ rest) = some (r, rest) := by
  obtain ⟨id, m, b⟩ := r
  simp only [serRequestRaw, List.append_assoc]
  rw [deserVec_serVec _ _ h1]
  simp only [Option.bind_eq_bind, Option.some_bind]
  rw [deserVec_serVec _ _ h2]
  simp only [Option.some_bind]
  rw [deserVec_serVec _ _ h3]
  rfl

theorem serResponseRaw_roundtrip (r : Response Bytes) (rest : Bytes)
    (h1 : r.to.length < 18446744073709551616)
    (h2 : r.method.length < 18446744073709551616)
    (h3 : r.body.length < 18446744073709551616) :
    serResponseRaw.deser (serResponseRaw.ser r ++ rest) = some (r, rest) := by
  obtain ⟨t, m, b⟩ := r
  simp only [serResponseRaw, List.append_assoc]
  rw [deserVec_serVec _ _ h1]
  simp only [Option.bind_eq_bind, Option.some_bind]
  rw [deserVec_serVec _ _ h2]
  simp only [Option.some_bind]
  rw [deserVec_serVec _ _ h3]
  rfl

/-- Claim C1: double-layer round trip.  For every serializable parameter
type (a lawful bincode instance `sp`) and every legal value `v`, take the
Request produced by invoking the method descriptor on `v`, encode it to
the wire bytes the dispatcher actually sends (the layer-2 envelope
encoding — the phantom tag adds nothing), then layer-2-decode with
`Request::from_bytes` and layer-1-decode with `convert_inner` at the
parameter type: the result is `some` of a request whose body equals `v`
(and whose id and method are those of the original request). -/
theorem c1_double_layer_round_trip {P R : Type} (sp : Serial P)
    (hsp : sp.lawful) (f : P → R) (name freshId : Bytes) (v : P)
    (hid : freshId.length < 18446744073709551616)
    (hname : name.length < 18446744073709551616)
    (hbody : (topSer sp v).length < 18446744073709551616) :
    (Request.from_bytes
        (Dispatcher.sent (Method.call sp (methodify f name) freshId v))).bind
      (Request.convert_inner sp)
      = some { id := freshId, method := name, body := v } := by
  have hrt := serRequestRaw_roundtrip (Request.new freshId name (topSer sp v))
    [] hid hname hbody
  unfold Request.from_bytes topDeser
  rw [show Dispatcher.sent (Method.call sp (methodify f name) freshId v)
      = serRequestRaw.ser (Request.new freshId name (topSer sp v)) ++ []
    from rfl, hrt]
  simp only [Option.map_some', Option.some_bind]
  unfold Request.convert_inner
  rw [show topDeser sp (Request.new freshId name (topSer sp v)).body = some v
    from topDeser_topSer sp hsp v]
  simp [Request.new]

/-- Claim C1 witness: the round trip evaluated at the concrete invocation
add(5, 23). -/
theorem c1_double_layer_round_trip_witness :
    Serial.lawful serU32pair
    ∧ demoId.length < 18446744073709551616
    ∧ strAdd.length < 18446744073709551616
    ∧ (topSer serU32pair ((5 : U32), (23 : U32))).length < 18446744073709551616
    ∧ (Request.from_bytes
        (Dispatcher.sent
          (Method.call serU32pair (methodify addImpl strAdd) demoId
            ((5 : U32), (23 : U32))))).bind
        (Request.convert_inner serU32pair)
      = some { id := demoId, method := strAdd, body := ((5 : U32), (23 : U32)) } :=
  ⟨serU32pair_lawful, by decide, by decide, by decide,
   c1_double_layer_round_trip serU32pair serU32pair_lawful addImpl strAdd
     demoId ((5 : U32), (23 : U32)) (by decide) (by decide) (by decide)⟩

/-- Claim C2: server dispatch pipeline correctness.  For every method
registered with implementation `implementation`, and every inbound frame
that layer-2-decodes to a request naming that method whose body
layer-1-decodes to a parameter value `p`, `Handler::handle` returns
`some` of exactly the layer-2 encoding of
`reply(request, layer-1 encoding of implementation p)`.  In particular
(second conjunct), with add registered as u32 addition, the full
client-server loop on add(5, 23) — client encode, server handle, client
decode of the produced frame — yields the typed result 28. -/
theorem c2_server_dispatch_correct {P R : Type} (sp : Serial P)
    (sr : Serial R) (h : Handler) (m : Method P R) (implementation : P → R)
    (input : Bytes) (req : Request Bytes) (p : P)
    (hdec : Request.from_bytes input = some req)
    (hm : req.method = m.name)
    (hp : topDeser sp req.body = some p) :
    Handler.handle (Handler.add h m sp sr implementation) input
      = some (topSer serResponseRaw (req.reply (topSer sr (implementation p))))
    ∧ (Handler.handle demoHandler (Dispatcher.sent demoCall)).map
        (fun res => (Dispatcher.dispatch serU32 demoCall (ReadOutcome.frame res)).2)
      = some (DispatchOutcome.ok 28) := by
  constructor
  · unfold Request.from_bytes at hdec
    unfold Handler.handle
    rw [hdec, Option.some_bind]
    have hfind : Handler.find (Handler.add h m sp sr implementation) req.method
        = some (rawCallback sp sr implementation) := by
      unfold Handler.add Handler.find
      rw [hm]
      simp
    rw [hfind, Option.some_bind]
    unfold rawCallback
    rw [hp, Option.map_some', Option.map_some']
  · decide

/-- Claim C2 witness: the hypotheses hold at the concrete add(5, 23)
scenario, and the instantiated conclusion gives the exact response frame. -/
theorem c2_server_dispatch_correct_witness :
    (Request.from_bytes (Dispatcher.sent demoCall) = some demoRequest
      ∧ demoRequest.method = addMethod.name
      ∧ topDeser serU32pair demoRequest.body = some ((5 : U32), (23 : U32)))
    ∧ Handler.handle
        (Handler.add Handler.empty addMethod serU32pair serU32 addImpl)
        (Dispatcher.sent demoCall)
      = some (topSer serResponseRaw
          (demoRequest.reply (topSer serU32 (addImpl ((5 : U32), (23 : U32)))))) :=
  ⟨⟨by decide, by decide, by decide⟩,
   (c2_server_dispatch_correct serU32pair serU32 Handler.empty addMethod
      addImpl (Dispatcher.sent demoCall) demoRequest ((5 : U32), (23 : U32))
      (by decide) (by decide) (by decide)).1⟩

/-- Claim C3: `reply` produces a response whose `to` equals the request
id, whose `method` equals the request method, and whose body is the given
body.  The source method takes the request by immutable borrow and clones
the fields; in this pure embedding the argument request is unchanged by
construction, so non-mutation holds trivially. -/
theorem c3_reply_fields {Body NewBody : Type} (r : Request Body)
    (b : NewBody) :
    (r.reply b).to = r.id ∧ (r.reply b).method = r.method
      ∧ (r.reply b).body = b :=
  ⟨rfl, rfl, rfl⟩

/-- Claim C4: invoking a descriptor executes no implementation.  The
returned request carries the declared name as `method` and the layer-1
serialization of the argument tuple as `body`; the second component is
only the zero-sized return type tag; and the whole result is independent
of whichever function was passed to `methodify` (so no implementation can
influence it — the source never even stores the function).  The request
type itself contains only `id`, `method` and `body`: no runtime type
information. -/
theorem c4_descriptor_call_pure {P R : Type} (sp : Serial P) (f g : P → R)
    (name freshId : Bytes) (v : P) :
    (Method.call sp (methodify f name) freshId v).1.method = name
    ∧ (Method.call sp (methodify f name) freshId v).1.body = topSer sp v
    ∧ (Method.call sp (methodify f name) freshId v).2 = Phantom.mk
    ∧ Method.call sp (methodify f name) freshId v
        = Method.call sp (methodify g name) freshId v :=
  ⟨rfl, rfl, rfl, rfl⟩

/-- Claim C5: server-side silent drop.  `Handler::handle` produces no
response bytes when the inbound frame fails the layer-2 envelope decode,
and also when the decoded request names a method with no registered
callback. -/
theorem c5_server_silent_drop (h : Handler) (input : Bytes)
    (hfail : Request.from_bytes input = none
      ∨ ∃ req, Request.from_bytes input = some req
          ∧ Handler.find h req.method = none) :
    Handler.handle h input = none := by
  unfold Handler.handle
  rcases hfail with hf | ⟨req, hsome, hnone⟩
  · unfold Request.from_bytes at hf
    rw [hf, Option.none_bind]
  · unfold Request.from_bytes at hsome
    rw [hsome, Option.some_bind, hnone, Option.none_bind]

/-- Claim C5 witness: a registry holding only add drops a well-formed
request for the unregistered name mul. -/
theorem c5_server_silent_drop_witness :
    (Request.from_bytes mulWire = some mulRequest
      ∧ Handler.find demoHandler mulRequest.method = none)
    ∧ Handler.handle demoHandler mulWire = none :=
  ⟨⟨by decide, by rfl⟩,
   c5_server_silent_drop demoHandler mulWire
     (Or.inr ⟨mulRequest, by decide, by rfl⟩)⟩

/-- Claim C6: last registration wins.  Registering `f1` and then `f2`
under the same method name yields a registry observationally equal (on
every `handle` input) to one where only `f2` was ever registered; in
particular the lookup for that name yields the wrapped `f2` callback, so
`f1` is never invoked.  `Handler::add` returns no error: the overwrite is
silent by its type. -/
theorem c6_last_registration_wins {P R : Type} (sp : Serial P)
    (sr : Serial R) (h : Handler) (m : Method P R) (f1 f2 : P → R)
    (input : Bytes) :
    Handler.handle (Handler.add (Handler.add h m sp sr f1) m sp sr f2) input
      = Handler.handle (Handler.add h m sp sr f2) input
    ∧ Handler.find (Handler.add (Handler.add h m sp sr f1) m sp sr f2) m.name
      = some (rawCallback sp sr f2) := by
  have hfind : ∀ name,
      Handler.find (Handler.add (Handler.add h m sp sr f1) m sp sr f2) name
        = Handler.find (Handler.add h m sp sr f2) name := by
    intro name
    unfold Handler.add
    by_cases hc : m.name = name
    · simp [Handler.find, hc]
    · simp [Handler.find, hc]
  constructor
  · unfold Handler.handle
    rcases hx : topDeser serRequestRaw input with _ | req
    · rfl
    · simp only [Option.some_bind]
      rw [hfind]
  · rw [hfind]
    unfold Handler.add Handler.find
    simp

/-- Claim C7: client-side decode failures are explicit.  When the received
frame fails the layer-2 response-envelope decode, or the envelope body
fails the layer-1 decode into the expected return type, `dispatch`
resolves to one of the two explicit protocol-error results — in either
case an error result is returned to the caller, never a value and never a
silent drop. -/
theorem c7_client_decode_failure_explicit {R : Type} (sr : Serial R)
    (req : Request Bytes × Phantom R) (bin : Bytes)
    (hfail : Response.from_bytes bin = none
      ∨ ∃ res, Response.from_bytes bin = some res
          ∧ res.convert_inner sr = none) :
    ((Dispatcher.dispatch sr req (ReadOutcome.frame bin)).2
        = DispatchOutcome.envelopeError
      ∨ (Dispatcher.dispatch sr req (ReadOutcome.frame bin)).2
        = DispatchOutcome.bodyError)
    ∧ ((Dispatcher.dispatch sr req (ReadOutcome.frame bin)).2).isErrorResult
        = true := by
  rcases hfail with hf | ⟨res, hsome, hconv⟩
  · have h2 : (Dispatcher.dispatch sr req (ReadOutcome.frame bin)).2
        = DispatchOutcome.envelopeError := by
      unfold Dispatcher.dispatch
      simp [hf]
    exact ⟨Or.inl h2, by rw [h2]; rfl⟩
  · have h2 : (Dispatcher.dispatch sr req (ReadOutcome.frame bin)).2
        = DispatchOutcome.bodyError := by
      unfold Dispatcher.dispatch
      simp [hsome, hconv]
    exact ⟨Or.inr h2, by rw [h2]; rfl⟩

/-- Claim C7 witness: the empty frame fails the envelope decode and
dispatch reports the explicit protocol error. -/
theorem c7_client_decode_failure_explicit_witness :
    Response.from_bytes [] = none
    ∧ (((Dispatcher.dispatch serU32 demoCall (ReadOutcome.frame [])).2
          = DispatchOutcome.envelopeError
        ∨ (Dispatcher.dispatch serU32 demoCall (ReadOutcome.frame [])).2
          = DispatchOutcome.bodyError)
       ∧ ((Dispatcher.dispatch serU32 demoCall (ReadOutcome.frame [])).2).isErrorResult
          = true) :=
  ⟨rfl, c7_client_decode_failure_explicit serU32 demoCall [] (Or.inl rfl)⟩

/-- Claim C8 counterexample: the claim states that when the stream ends
before a response frame arrives, dispatch returns an error result to its
caller.  It does not: the read is `transport.next().await.unwrap()?`, and
on end-of-stream `next()` yields `None`, so the `unwrap()` panics — the
outcome at this concrete input is the panic, not a returned Err. -/
theorem c8_stream_end_counterexample :
    (Dispatcher.dispatch serU32 demoCall ReadOutcome.streamEnd).2
      = DispatchOutcome.panicked
    ∧ ((Dispatcher.dispatch serU32 demoCall ReadOutcome.streamEnd).2).isErrorResult
      = false :=
  ⟨rfl, rfl⟩

/-- Claim C8 (amended): if the underlying read fails, dispatch returns an
error result to its caller; if the stream ends before a response frame
arrives, dispatch panics (aborts) rather than returning an error result;
in neither case does it return a successful value. -/
theorem c8_transport_failure_amended {R : Type} (sr : Serial R)
    (req : Request Bytes × Phantom R) :
    (Dispatcher.dispatch sr req ReadOutcome.readError).2
      = DispatchOutcome.transportError
    ∧ (Dispatcher.dispatch sr req ReadOutcome.streamEnd).2
      = DispatchOutcome.panicked
    ∧ ∀ v : R,
        (Dispatcher.dispatch sr req ReadOutcome.readError).2
          ≠ DispatchOutcome.ok v
        ∧ (Dispatcher.dispatch sr req ReadOutcome.streamEnd).2
          ≠ DispatchOutcome.ok v := by
  refine ⟨rfl, rfl, fun v => ⟨?_, ?_⟩⟩ <;> simp [Dispatcher.dispatch]

/-- Claim C9: server-side body decode failure aborts the callback.  If the
request body does not layer-1-decode at the parameter type of the
registered method, the type-erased callback built by `Handler::add` does
not return a response (the `expect` panics; here the abort is `none`), so
no error response is constructed. -/
theorem c9_body_decode_abort {P R : Type} (sp : Serial P) (sr : Serial R)
    (implementation : P → R) (req : Request Bytes)
    (hbad : topDeser sp req.body = none) :
    rawCallback sp sr implementation req = none := by
  unfold rawCallback
  rw [hbad]
  rfl

/-- Claim C9 witness: an empty body does not decode as a (u32, u32)
tuple, and the wrapped add callback aborts on it. -/
theorem c9_body_decode_abort_witness :
    topDeser serU32pair badBodyRequest.body = none
    ∧ rawCallback serU32pair serU32 addImpl badBodyRequest = none :=
  ⟨rfl, c9_body_decode_abort serU32pair serU32 addImpl badBodyRequest rfl⟩

/-- Claim C10: wire-format agreement.  The bytes the client dispatcher
sends — the bincode serialization of the pair of the raw request and the
`PhantomData<R>` tag — are byte-for-byte the bincode serialization of the
request alone (the tag contributes zero bytes), and that single layer-2
envelope encoding is exactly what the layer-2 decode at the head of
`Handler::handle` reads back as the same request. -/
theorem c10_wire_format_agreement {R : Type} (req : Request Bytes)
    (tag : Phantom R)
    (h1 : req.id.length < 18446744073709551616)
    (h2 : req.method.length < 18446744073709551616)
    (h3 : req.body.length < 18446744073709551616) :
    Dispatcher.sent (req, tag) = topSer serRequestRaw req
    ∧ Request.from_bytes (Dispatcher.sent (req, tag)) = some req := by
  have hs : Dispatcher.sent (req, tag) = topSer serRequestRaw req := by
    show serRequestRaw.ser req ++ [] = serRequestRaw.ser req
    exact List.append_nil _
  refine ⟨hs, ?_⟩
  rw [hs]
  unfold Request.from_bytes topDeser
  have hrt := serRequestRaw_roundtrip req [] h1 h2 h3
  rw [List.append_nil] at hrt
  rw [show serRequestRaw.deser (topSer serRequestRaw req) = some (req, [])
    from hrt]
  rfl

/-- Claim C10 witness: agreement evaluated at the concrete add(5, 23)
request. -/
theorem c10_wire_format_agreement_witness :
    demoRequest.id.length < 18446744073709551616
    ∧ demoRequest.method.length < 18446744073709551616
    ∧ demoRequest.body.length < 18446744073709551616
    ∧ (Dispatcher.sent (demoRequest, (⟨⟩ : Phantom U32))
        = topSer serRequestRaw demoRequest
      ∧ Request.from_bytes (Dispatcher.sent (demoRequest, (⟨⟩ : Phantom U32)))
        = some demoRequest) :=
  ⟨by decide, by decide, by decide,
   c10_wire_format_agreement demoRequest ⟨⟩ (by decide) (by decide) (by decide)⟩

end AvSocket
